import Mathlib

/-!
Verification of the dataset-preparation / annotation-counting pipeline
(`src/prepare_dataset.py` and `train/utils.py`).

The embedding models:
* Python `str.strip()` / `str.split()` / `int(...)` on the line level;
* the per-line counting loop of `copy_and_count_annotation`
  (prepare_dataset.py, lines 133-157) and of `process_single_label_file`
  (utils.py, lines 102-120), including the exception behaviour of
  `int(parts[0])` being caught by the enclosing per-file `try/except`;
* the split-processing loops of `prepare_dataset` and the report
  construction of `count_annotations_per_class_in_cvat_splits`.
-/

namespace MLInv

/-- Characters treated as whitespace by Python's `str.strip()` / `str.split()`. -/
def isPySpace (c : Char) : Bool :=
  c = ' ' || c = '\t' || c = '\n' || c = '\x0d' || c = '\x0b' || c = '\x0c'

/-- Python `str.strip()`: drop leading and trailing whitespace. -/
def pyStrip (s : String) : String :=
  String.mk (((s.toList.dropWhile isPySpace).reverse.dropWhile isPySpace).reverse)

/-- Helper for `pySplit`: accumulate the current token (reversed) while walking the chars. -/
def pySplitAux : List Char → List Char → List String
  | [], acc => if acc.isEmpty then [] else [String.mk acc.reverse]
  | c :: cs, acc =>
    if isPySpace c then
      if acc.isEmpty then pySplitAux cs []
      else String.mk acc.reverse :: pySplitAux cs []
    else pySplitAux cs (c :: acc)

/-- Python `str.split()` with no separator: split on whitespace runs, no empty fields. -/
def pySplit (s : String) : List String := pySplitAux s.toList []

def isAsciiDigit (c : Char) : Bool := '0' ≤ c && c ≤ '9'

def digitVal (c : Char) : Nat := c.toNat - '0'.toNat

/-- Digits of a Python decimal integer literal after the first digit:
single underscores are allowed between digits. -/
def parseDigitPart : List Char → Nat → Option Nat
  | [], acc => some acc
  | '_' :: c :: cs, acc =>
    if isAsciiDigit c then parseDigitPart cs (acc * 10 + digitVal c) else none
  | ['_'], _ => none
  | c :: cs, acc =>
    if isAsciiDigit c then parseDigitPart cs (acc * 10 + digitVal c) else none

/-- A nonempty digit part: first char must be a digit. -/
def parseFirstDigit : List Char → Option Nat
  | [] => none
  | c :: cs => if isAsciiDigit c then parseDigitPart cs (digitVal c) else none

/-- Body of Python `int(...)` after whitespace stripping: optional sign, digit part. -/
def pyIntCore : List Char → Option Int
  | '+' :: cs => (parseFirstDigit cs).map Int.ofNat
  | '-' :: cs => (parseFirstDigit cs).map (fun n => -(Int.ofNat n : Int))
  | cs => (parseFirstDigit cs).map Int.ofNat

/-- Python `int(s)` for a string: `some n` on a valid integer literal,
`none` when `int` would raise `ValueError`. -/
def pyInt (s : String) : Option Int := pyIntCore (pyStrip s).toList

/-- Per-class counts, keyed by class name as in the Python `defaultdict(int)`. -/
def Counts : Type := String → Nat

/-- The all-zero count table (a fresh `defaultdict(int)`). -/
def zeroCounts : Counts := fun _ => 0

/-- `d[k] += 1` on a count dictionary. -/
def bump (c : Counts) (k : String) : Counts :=
  fun s => if s = k then c s + 1 else c s

/-- The line loop of `copy_and_count_annotation` (prepare_dataset.py 137-147):
for each line, split; `< 5` fields is a malformed skip (`continue`);
otherwise `int(parts[0])` — a parse failure raises `ValueError`, aborting the
rest of the file (second component `false`); in-range ids bump the count for
the class name at that index; out-of-range ids are skipped. -/
def countLinesCC (names : List String) : List String → Counts → Counts × Bool
  | [], c => (c, true)
  | l :: ls, c =>
    let parts := pySplit (pyStrip l)
    if parts.length < 5 then countLinesCC names ls c
    else
      match pyInt (parts.headD "") with
      | none => (c, false)
      | some i =>
        if 0 ≤ i ∧ i < (names.length : Int) then
          countLinesCC names ls (bump c (names.getD i.toNat ""))
        else countLinesCC names ls c

/-- The line loop of `process_single_label_file` (utils.py 107-117):
`≥ 5` fields, then `int(parts[0])` (a parse failure raises `ValueError`,
caught by the function-level `try/except`, so the loop stops and the counts
and object tally so far are returned); in-range ids bump the count and the
per-file object tally; out-of-range and malformed lines are skipped. -/
def countLinesPSL (names : List String) : List String → Counts → Nat → Counts × Nat
  | [], c, k => (c, k)
  | l :: ls, c, k =>
    let parts := pySplit (pyStrip l)
    if parts.length ≥ 5 then
      match pyInt (parts.headD "") with
      | none => (c, k)
      | some i =>
        if 0 ≤ i ∧ i < (names.length : Int) then
          countLinesPSL names ls (bump c (names.getD i.toNat "")) (k + 1)
        else countLinesPSL names ls c k
    else countLinesPSL names ls c k

/-- Per-file environment: which of the fallible I/O steps of
`copy_and_count_annotation` succeed for this file. -/
structure FileEnv where
  openOk : Bool
  copyLabelOk : Bool
  copyImgOk : Bool

/-- Result of one `copy_and_count_annotation` call: the (shared, mutated-in-place)
count dictionary, the boolean return value, and which output files were written. -/
structure CCResult where
  counts : Counts
  ok : Bool
  wroteLabel : Bool
  wroteImage : Bool

/-- `copy_and_count_annotation` (prepare_dataset.py 127-157): read and count the
label lines, then copy the label file, then copy the image; any exception
(open failure, `int` ValueError, copy failure) is caught by the function's
`try/except` and yields `False`, leaving whatever counts were already
accumulated in the shared dictionary. -/
def copy_and_count_annotation (env : FileEnv) (names : List String)
    (lines : List String) (c : Counts) : CCResult :=
  if env.openOk = false then ⟨c, false, false, false⟩
  else
    let r := countLinesCC names lines c
    if r.2 = false then ⟨r.1, false, false, false⟩
    else if env.copyLabelOk = false then ⟨r.1, false, false, false⟩
    else if env.copyImgOk = false then ⟨r.1, false, true, false⟩
    else ⟨r.1, true, true, true⟩

/-- `process_single_label_file` (utils.py 102-120): returns the updated counts
and the number of objects found in the file; every exception is caught at the
function level (an open failure yields zero objects, an `int` ValueError
returns the partial tally). -/
def process_single_label_file (openOk : Bool) (names : List String)
    (lines : List String) (c : Counts) : Counts × Nat :=
  if openOk = false then (c, 0)
  else countLinesPSL names lines c 0

/-! ### Directory scanning and the Dataset Preparer (`prepare_dataset.py`) -/

/-- Python `s.endswith(suffix)`: the last `len(suffix)` characters equal it. -/
def pyEndsWith (s suffix : String) : Bool :=
  decide (s.toList.drop (s.toList.length - suffix.toList.length) = suffix.toList)

/-- ASCII case folding of one character, as `str.lower()` does on ASCII input. -/
def pyToLowerChar (c : Char) : Char :=
  if 'A' ≤ c ∧ c ≤ 'Z' then Char.ofNat (c.toNat + 32) else c

/-- Python `s.lower()` (restricted to its ASCII behaviour). -/
def pyToLower (s : String) : String := String.mk (s.toList.map pyToLowerChar)

/-- `f.lower().endswith(('.jpg', '.jpeg', '.png'))` (prepare_dataset.py 32-33). -/
def isImageFile (f : String) : Bool :=
  pyEndsWith (pyToLower f) ".jpg" || pyEndsWith (pyToLower f) ".jpeg" ||
    pyEndsWith (pyToLower f) ".png"

/-- Index of the last `'.'` in a character list, if any. -/
def lastDotIdx (cs : List Char) : Option Nat :=
  (List.range cs.length).foldl
    (fun acc i => if cs.getD i ' ' = '.' then some i else acc) none

/-- `os.path.splitext(f)[0]` for a bare file name: split at the last dot,
except that a name consisting only of leading dots up to that position
(e.g. `.bashrc`) is not split. -/
def splitextBase (p : String) : String :=
  let cs := p.toList
  match lastDotIdx cs with
  | none => p
  | some d => if (cs.take d).all (fun c => c = '.') then p else String.mk (cs.take d)

/-- `all_raw_images_basenames` (prepare_dataset.py 32): base names of the
image files in the raw-images directory. -/
def rawBasenames (rawFiles : List String) : List String :=
  (rawFiles.filter isImageFile).map splitextBase

/-- `raw_images_full_paths` (prepare_dataset.py 33): base name to image file
name; the dict comprehension lets a later duplicate base name win. -/
def rawPathMap (rawFiles : List String) (b : String) : Option String :=
  (rawFiles.filter isImageFile).foldl
    (fun acc f => if splitextBase f = b then some f else acc) none

/-- Mutable state of one split-processing loop of `prepare_dataset`:
the accepted-image counter for this split, the (run-wide) skipped counter and
count dictionary, and the files copied into the split's output directories. -/
structure SplitState where
  accepted : Nat
  skipped : Nat
  counts : Counts
  copiedLabels : List (String × List String)
  copiedImages : List (String × String)

/-- The per-split loop of `prepare_dataset` (lines 53-73 / 77-97): skip
non-`.txt` entries silently, count label files with no matching raw image as
skipped, otherwise run `copy_and_count_annotation` and increment the split's
accepted counter on success or the skipped counter on failure. -/
def processSplitFiles (names : List String) (rawFiles : List String)
    (imgContent : String → String) (content : String → List String)
    (fenv : String → FileEnv) : List String → SplitState → SplitState
  | [], st => st
  | f :: fs, st =>
    if pyEndsWith f ".txt" = false then
      processSplitFiles names rawFiles imgContent content fenv fs st
    else
      let base := splitextBase f
      if (rawBasenames rawFiles).contains base = false then
        processSplitFiles names rawFiles imgContent content fenv fs
          { st with skipped := st.skipped + 1 }
      else
        let imgFile := (rawPathMap rawFiles base).getD ""
        let r := copy_and_count_annotation (fenv f) names (content f) st.counts
        processSplitFiles names rawFiles imgContent content fenv fs
          { accepted := if r.ok then st.accepted + 1 else st.accepted
            skipped := if r.ok then st.skipped else st.skipped + 1
            counts := r.counts
            copiedLabels :=
              if r.wroteLabel then st.copiedLabels ++ [(f, content f)] else st.copiedLabels
            copiedImages :=
              if r.wroteImage then st.copiedImages ++ [(imgFile, imgContent imgFile)]
              else st.copiedImages }

/-- The `data.yaml` manifest (prepare_dataset.py 112-121). -/
structure Manifest where
  path : String
  train : String
  val : String
  nc : Nat
  names : List String

/-- Contents of the output directory after a run: copied label and image
files per split (name and content) and the optional manifest. -/
structure OutputTree where
  trainLabels : List (String × List String)
  trainImages : List (String × String)
  valLabels : List (String × List String)
  valImages : List (String × String)
  manifest : Option Manifest

/-- The output directory right after `rmtree` + `makedirs` (lines 20-27). -/
def emptyTree : OutputTree := ⟨[], [], [], [], none⟩

/-- Inputs of one `prepare_dataset` run: the raw-images directory listing and
file contents, each split's label-directory existence, listing and contents,
and the absolute output root recorded in the manifest. -/
structure PrepInput where
  outputRootAbs : String
  rawDirFiles : List String
  imgContent : String → String
  trainDirExists : Bool
  trainFiles : List String
  trainContent : String → List String
  valDirExists : Bool
  valFiles : List String
  valContent : String → List String

/-- Failure injection for the fallible per-file I/O of each split. -/
structure PrepEnv where
  trainEnv : String → FileEnv
  valEnv : String → FileEnv

/-- Observable result of a `prepare_dataset` run. -/
structure PrepResult where
  trainImageCount : Nat
  valImageCount : Nat
  skippedImageCount : Nat
  counts : Counts
  tree : OutputTree

/-- `prepare_dataset` (prepare_dataset.py 18-124) after the output reset:
process the train split (if its label directory exists), then the validation
split, sharing the skipped counter and the count dictionary; emit the
manifest only when at least one image was accepted. -/
def prepare_dataset (names : List String) (env : PrepEnv) (inp : PrepInput) : PrepResult :=
  let st0 : SplitState := ⟨0, 0, zeroCounts, [], []⟩
  let stT :=
    if inp.trainDirExists then
      processSplitFiles names inp.rawDirFiles inp.imgContent inp.trainContent
        env.trainEnv inp.trainFiles st0
    else st0
  let stV0 : SplitState := ⟨0, stT.skipped, stT.counts, [], []⟩
  let stV :=
    if inp.valDirExists then
      processSplitFiles names inp.rawDirFiles inp.imgContent inp.valContent
        env.valEnv inp.valFiles stV0
    else stV0
  let manifest : Option Manifest :=
    if stT.accepted + stV.accepted = 0 then none
    else some ⟨inp.outputRootAbs, "train/images", "val/images", names.length, names⟩
  ⟨stT.accepted, stV.accepted, stV.skipped, stV.counts,
   ⟨stT.copiedLabels, stT.copiedImages, stV.copiedLabels, stV.copiedImages, manifest⟩⟩

/-- One run of `prepare_dataset` against a pre-existing output tree: lines
20-27 delete the output directory (`shutil.rmtree`) and recreate it empty, so
the prior tree is discarded and the output is rebuilt from the inputs alone
into the cleared tree. -/
def prepare_dataset_run (names : List String) (env : PrepEnv) (inp : PrepInput)
    (_prev : OutputTree) : PrepResult :=
  prepare_dataset names env inp

/-! ### The Annotation Counter (`train/utils.py`) -/

/-- `CLASS_NAMES` as defined in both scripts. -/
def CLASS_NAMES : List String := ["carrot", "bean", "radish"]

/-- `TARGET_INSTANCES_PER_CLASS` (utils.py 84). -/
def TARGET_INSTANCES_PER_CLASS : Nat := 50

/-- Inputs of one Annotation Counter run: each split's label-directory
existence, listing, file contents, and per-file readability. -/
structure CounterInput where
  trainDirExists : Bool
  trainFiles : List String
  trainContent : String → List String
  trainOpenOk : String → Bool
  valDirExists : Bool
  valFiles : List String
  valContent : String → List String
  valOpenOk : String → Bool

/-- The per-split loop of `count_annotations_per_class_in_cvat_splits`
(utils.py 33-36 / 48-51): fold `process_single_label_file` over the split's
`.txt` files, accumulating the counts and the split's total object tally. -/
def countSplit (names : List String) (content : String → List String)
    (openOk : String → Bool) : List String → Counts → Nat → Counts × Nat
  | [], c, t => (c, t)
  | f :: fs, c, t =>
    let r := process_single_label_file (openOk f) names (content f) c
    countSplit names content openOk fs r.1 (t + r.2)

/-- The values reported by the Annotation Counter's summary. -/
structure CounterReport where
  totalTrain : Nat
  totalVal : Nat
  trainCounts : Counts
  valCounts : Counts
  overallCounts : Counts
  targetMet : List (String × Bool)
  allTargetsMet : Bool

/-- A Python runtime error escaping the function. -/
inductive PyError
  | nameError

/-- `count_annotations_per_class_in_cvat_splits` (utils.py 14-98): count both
splits, then build the summary. `overall_counts` is assigned only inside the
`if total_objects_overall > 0:` block (lines 77-81), yet the target-progress
loop (lines 87-88) reads it for every class name, so with a zero overall
total and a nonempty class table the function raises an unbound-local
`NameError` at line 88. -/
def count_annotations_per_class_in_cvat_splits (names : List String)
    (inp : CounterInput) : Except PyError CounterReport :=
  let tr :=
    if inp.trainDirExists then
      countSplit names inp.trainContent inp.trainOpenOk
        (inp.trainFiles.filter (fun f => pyEndsWith f ".txt")) zeroCounts 0
    else (zeroCounts, 0)
  let va :=
    if inp.valDirExists then
      countSplit names inp.valContent inp.valOpenOk
        (inp.valFiles.filter (fun f => pyEndsWith f ".txt")) zeroCounts 0
    else (zeroCounts, 0)
  let totalOverall := tr.2 + va.2
  if 0 < totalOverall then
    let overall : Counts := fun s => if names.contains s then tr.1 s + va.1 s else 0
    Except.ok
      ⟨tr.2, va.2, tr.1, va.1, overall,
       names.map (fun cn => (cn, decide (TARGET_INSTANCES_PER_CLASS ≤ overall cn))),
       names.all (fun cn => decide (TARGET_INSTANCES_PER_CLASS ≤ overall cn))⟩
  else
    match names with
    | [] => Except.ok ⟨tr.2, va.2, tr.1, va.1, zeroCounts, [], true⟩
    | _ :: _ => Except.error PyError.nameError

/-! ### File-system effect traces (for the frame property of the counter) -/

/-- The file-system operations the scripts perform. -/
inductive FsOp
  | checkExists (path : String)
  | listDir (path : String)
  | openRead (path : String)
  | writeFile (path : String) (content : String)
  | copyFile (src : String) (dst : String)
  | removeTree (path : String)
  | makeDirs (path : String)

/-- Whether an operation writes to the file system. -/
def FsOp.mutates : FsOp → Bool
  | .writeFile _ _ => true
  | .copyFile _ _ => true
  | .removeTree _ => true
  | .makeDirs _ => true
  | _ => false

/-- A file-system state: file contents by path (`none` = absent). -/
def FS : Type := String → Option String

/-- Effect of one operation on the file system; read operations leave it
unchanged, write operations update it. -/
def applyOp (fs : FS) : FsOp → FS
  | .checkExists _ => fs
  | .listDir _ => fs
  | .openRead _ => fs
  | .writeFile p content => fun q => if q = p then some content else fs q
  | .copyFile src dst => fun q => if q = dst then fs src else fs q
  | .removeTree p => fun q => if decide (q.toList.take p.toList.length = p.toList) then none else fs q
  | .makeDirs _ => fs

/-- Run a trace of operations over a file-system state. -/
def applyTrace (ops : List FsOp) (fs : FS) : FS := ops.foldl applyOp fs

def CVAT_EXPORTS_BASE_DIR : String := "cvat_exports/annotations_v1"

def cvatTrainLabelsDir : String := CVAT_EXPORTS_BASE_DIR ++ "/labels/train"

def cvatValLabelsDir : String := CVAT_EXPORTS_BASE_DIR ++ "/labels/validation"

/-- The trace of file-system operations performed by one run of
`count_annotations_per_class_in_cvat_splits`: an existence check per split,
then (when the directory exists) one listing and one read-only open per
`.txt` file found. No write operation occurs anywhere in the function. -/
def counterTrace (inp : CounterInput) : List FsOp :=
  (FsOp.checkExists cvatTrainLabelsDir ::
    (if inp.trainDirExists then
      FsOp.listDir cvatTrainLabelsDir ::
        (inp.trainFiles.filter (fun f => pyEndsWith f ".txt")).map
          (fun f => FsOp.openRead (cvatTrainLabelsDir ++ "/" ++ f))
     else [])) ++
  (FsOp.checkExists cvatValLabelsDir ::
    (if inp.valDirExists then
      FsOp.listDir cvatValLabelsDir ::
        (inp.valFiles.filter (fun f => pyEndsWith f ".txt")).map
          (fun f => FsOp.openRead (cvatValLabelsDir ++ "/" ++ f))
     else []))


/-! ### Step lemmas for the two line loops -/

/-- A malformed (fewer-than-five-field) line is skipped by the preparer's loop. -/
theorem countLinesCC_cons_mal {names : List String} {l : String} {ls : List String}
    {c : Counts} (h5 : (pySplit (pyStrip l)).length < 5) :
    countLinesCC names (l :: ls) c = countLinesCC names ls c := by
  simp only [countLinesCC]; rw [if_pos h5]

/-- A five-field line with an unparsable first field raises `ValueError` in the
preparer's loop: the rest of the file is dropped. -/
theorem countLinesCC_cons_raise {names : List String} {l : String} {ls : List String}
    {c : Counts} (h5 : ¬ (pySplit (pyStrip l)).length < 5)
    (hp : pyInt ((pySplit (pyStrip l)).headD "") = none) :
    countLinesCC names (l :: ls) c = (c, false) := by
  simp only [countLinesCC]; rw [if_neg h5, hp]

/-- An in-range line bumps its class's count in the preparer's loop. -/
theorem countLinesCC_cons_ok {names : List String} {l : String} {ls : List String}
    {c : Counts} {i : Int} (h5 : ¬ (pySplit (pyStrip l)).length < 5)
    (hp : pyInt ((pySplit (pyStrip l)).headD "") = some i)
    (hr : 0 ≤ i ∧ i < (names.length : Int)) :
    countLinesCC names (l :: ls) c =
      countLinesCC names ls (bump c (names.getD i.toNat "")) := by
  simp only [countLinesCC]; rw [if_neg h5, hp]; simp only []; rw [if_pos hr]

/-- An out-of-range line is skipped by the preparer's loop. -/
theorem countLinesCC_cons_oor {names : List String} {l : String} {ls : List String}
    {c : Counts} {i : Int} (h5 : ¬ (pySplit (pyStrip l)).length < 5)
    (hp : pyInt ((pySplit (pyStrip l)).headD "") = some i)
    (hr : ¬(0 ≤ i ∧ i < (names.length : Int))) :
    countLinesCC names (l :: ls) c = countLinesCC names ls c := by
  simp only [countLinesCC]; rw [if_neg h5, hp]; simp only []; rw [if_neg hr]

/-- A malformed line is skipped by the counter's loop. -/
theorem countLinesPSL_cons_mal {names : List String} {l : String} {ls : List String}
    {c : Counts} {k : Nat} (h5 : (pySplit (pyStrip l)).length < 5) :
    countLinesPSL names (l :: ls) c k = countLinesPSL names ls c k := by
  simp only [countLinesPSL]; rw [if_neg (by omega)]

/-- An unparsable first field stops the counter's loop with the tally so far. -/
theorem countLinesPSL_cons_raise {names : List String} {l : String} {ls : List String}
    {c : Counts} {k : Nat} (h5 : ¬ (pySplit (pyStrip l)).length < 5)
    (hp : pyInt ((pySplit (pyStrip l)).headD "") = none) :
    countLinesPSL names (l :: ls) c k = (c, k) := by
  simp only [countLinesPSL]; rw [if_pos (by omega), hp]

/-- An in-range line bumps its class's count and the tally in the counter's loop. -/
theorem countLinesPSL_cons_ok {names : List String} {l : String} {ls : List String}
    {c : Counts} {k : Nat} {i : Int} (h5 : ¬ (pySplit (pyStrip l)).length < 5)
    (hp : pyInt ((pySplit (pyStrip l)).headD "") = some i)
    (hr : 0 ≤ i ∧ i < (names.length : Int)) :
    countLinesPSL names (l :: ls) c k =
      countLinesPSL names ls (bump c (names.getD i.toNat "")) (k + 1) := by
  simp only [countLinesPSL]; rw [if_pos (by omega), hp]; simp only []; rw [if_pos hr]

/-- An out-of-range line is skipped by the counter's loop. -/
theorem countLinesPSL_cons_oor {names : List String} {l : String} {ls : List String}
    {c : Counts} {k : Nat} {i : Int} (h5 : ¬ (pySplit (pyStrip l)).length < 5)
    (hp : pyInt ((pySplit (pyStrip l)).headD "") = some i)
    (hr : ¬(0 ≤ i ∧ i < (names.length : Int))) :
    countLinesPSL names (l :: ls) c k = countLinesPSL names ls c k := by
  simp only [countLinesPSL]; rw [if_pos (by omega), hp]; simp only []; rw [if_neg hr]

/-! ### Helper lemmas -/

/-- The per-file object tally parameter of `countLinesPSL` does not influence
the resulting count dictionary. -/
theorem countLinesPSL_fst_indep (names : List String) (lines : List String) :
    ∀ (c : Counts) (k k' : Nat),
      (countLinesPSL names lines c k).1 = (countLinesPSL names lines c k').1 := by
  induction lines with
  | nil => intro c k k'; rfl
  | cons l ls ih =>
    intro c k k'
    by_cases h5 : (pySplit (pyStrip l)).length < 5
    · rw [countLinesPSL_cons_mal h5, countLinesPSL_cons_mal h5]; exact ih _ _ _
    · cases hp : pyInt ((pySplit (pyStrip l)).headD "") with
      | none => rw [countLinesPSL_cons_raise h5 hp, countLinesPSL_cons_raise h5 hp]
      | some i =>
        by_cases hr : 0 ≤ i ∧ i < (names.length : Int)
        · rw [countLinesPSL_cons_ok h5 hp hr, countLinesPSL_cons_ok h5 hp hr]
          exact ih _ _ _
        · rw [countLinesPSL_cons_oor h5 hp hr, countLinesPSL_cons_oor h5 hp hr]
          exact ih _ _ _

/-- The two line loops produce the same count dictionary on the same lines. -/
theorem countLines_counts_eq (names : List String) (lines : List String) :
    ∀ c : Counts, (countLinesCC names lines c).1 = (countLinesPSL names lines c 0).1 := by
  induction lines with
  | nil => intro c; rfl
  | cons l ls ih =>
    intro c
    by_cases h5 : (pySplit (pyStrip l)).length < 5
    · rw [countLinesCC_cons_mal h5, countLinesPSL_cons_mal h5]; exact ih c
    · cases hp : pyInt ((pySplit (pyStrip l)).headD "") with
      | none => rw [countLinesCC_cons_raise h5 hp, countLinesPSL_cons_raise h5 hp]
      | some i =>
        by_cases hr : 0 ≤ i ∧ i < (names.length : Int)
        · rw [countLinesCC_cons_ok h5 hp hr, countLinesPSL_cons_ok h5 hp hr]
          exact (ih _).trans (countLinesPSL_fst_indep names ls _ 0 (0 + 1))
        · rw [countLinesCC_cons_oor h5 hp hr, countLinesPSL_cons_oor h5 hp hr]
          exact ih c

/-- The count dictionary left by `copy_and_count_annotation` is exactly the one
the line loop produced (or the input counts when the open failed), regardless
of the copy outcomes. -/
theorem copy_and_count_counts_eq (env : FileEnv) (names : List String)
    (lines : List String) (c : Counts) :
    ( copy_and_count_annotation env names lines c).counts =
      if env.openOk then (countLinesCC names lines c).1 else c := by
  obtain ⟨o, cl, ci⟩ := env
  cases o with
  | false => rfl
  | true =>
    simp only [ copy_and_count_annotation]
    cases h2 : (countLinesCC names lines c).2 with
    | false => simp
    | true => cases cl <;> cases ci <;> simp [h2]

/-- Prepending an exception-free batch of lines composes the line loop. -/
theorem countLinesCC_append (names : List String) (pre : List String) :
    ∀ (rest : List String) (c : Counts), (countLinesCC names pre c).2 = true →
      countLinesCC names (pre ++ rest) c =
        countLinesCC names rest (countLinesCC names pre c).1 := by
  induction pre with
  | nil => intro rest c _; rfl
  | cons l ls ih =>
    intro rest c hok
    by_cases h5 : (pySplit (pyStrip l)).length < 5
    · rw [countLinesCC_cons_mal h5] at hok
      rw [List.cons_append, countLinesCC_cons_mal h5, ih rest c hok,
        countLinesCC_cons_mal h5]
    · cases hp : pyInt ((pySplit (pyStrip l)).headD "") with
      | none => rw [countLinesCC_cons_raise h5 hp] at hok; simp at hok
      | some i =>
        by_cases hr : 0 ≤ i ∧ i < (names.length : Int)
        · rw [countLinesCC_cons_ok h5 hp hr] at hok
          rw [List.cons_append, countLinesCC_cons_ok h5 hp hr, ih rest _ hok,
            countLinesCC_cons_ok h5 hp hr]
        · rw [countLinesCC_cons_oor h5 hp hr] at hok
          rw [List.cons_append, countLinesCC_cons_oor h5 hp hr, ih rest c hok,
            countLinesCC_cons_oor h5 hp hr]

/-! ### Claims -/

/-- C4: a line with fewer than five whitespace-separated fields is a
malformed skip, and a line whose first field parses to an integer outside
`[0, len(class_name_table))` is an out-of-range skip; in both components the
line contributes zero to every per-class count and to the per-file tally, and
processing continues with the remaining lines. -/
theorem C4_skipped_lines_contribute_zero (names : List String) (l : String)
    (rest : List String) (c : Counts) (k : Nat)
    (h : (pySplit (pyStrip l)).length < 5 ∨
      ∃ i : Int, pyInt ((pySplit (pyStrip l)).headD "") = some i ∧
        (i < 0 ∨ (names.length : Int) ≤ i)) :
    countLinesCC names (l :: rest) c = countLinesCC names rest c ∧
    countLinesPSL names (l :: rest) c k = countLinesPSL names rest c k := by
  by_cases h5 : (pySplit (pyStrip l)).length < 5
  · exact ⟨countLinesCC_cons_mal h5, countLinesPSL_cons_mal h5⟩
  · rcases h with h5' | ⟨i, hp, hr⟩
    · exact absurd h5' h5
    · have hnot : ¬(0 ≤ i ∧ i < (names.length : Int)) := by omega
      exact ⟨countLinesCC_cons_oor h5 hp hnot, countLinesPSL_cons_oor h5 hp hnot⟩

/-- Witness for C4 at the malformed line `"0 0.5"` with the repository's
class table. -/
theorem C4_skipped_lines_contribute_zero_witness :
    countLinesCC CLASS_NAMES ["0 0.5", "1 0 0 0 0"] zeroCounts =
      countLinesCC CLASS_NAMES ["1 0 0 0 0"] zeroCounts ∧
    countLinesPSL CLASS_NAMES ["0 0.5", "1 0 0 0 0"] zeroCounts 0 =
      countLinesPSL CLASS_NAMES ["1 0 0 0 0"] zeroCounts 0 :=
  C4_skipped_lines_contribute_zero CLASS_NAMES "0 0.5" ["1 0 0 0 0"] zeroCounts 0
    (Or.inl (by decide))

/-- C5: a line with at least five fields whose first field parses to an
integer inside `[0, len(class_name_table))` bumps exactly the class at that
index by one (all other class counts unchanged) in both components, whatever
the four geometry fields contain. -/
theorem C5_valid_line_counts_once (names : List String) (l : String)
    (rest : List String) (c : Counts) (k : Nat) (i : Int)
    (h5 : ¬ (pySplit (pyStrip l)).length < 5)
    (hp : pyInt ((pySplit (pyStrip l)).headD "") = some i)
    (h0 : 0 ≤ i) (hlt : i < (names.length : Int)) :
    countLinesCC names (l :: rest) c =
      countLinesCC names rest (bump c (names.getD i.toNat "")) ∧
    countLinesPSL names (l :: rest) c k =
      countLinesPSL names rest (bump c (names.getD i.toNat "")) (k + 1) ∧
    bump c (names.getD i.toNat "") (names.getD i.toNat "") =
      c (names.getD i.toNat "") + 1 ∧
    ∀ s, s ≠ names.getD i.toNat "" → bump c (names.getD i.toNat "") s = c s := by
  refine ⟨countLinesCC_cons_ok h5 hp ⟨h0, hlt⟩,
    countLinesPSL_cons_ok h5 hp ⟨h0, hlt⟩, ?_, ?_⟩
  · simp only [bump]; rw [if_pos trivial]
  · intro s hs; simp only [bump]; rw [if_neg hs]

/-- Witness for C5: the line `"2 0.1 0.1 bad bad"` with the three-entry
repository class table is counted as one `radish` instance even though its
geometry fields are not numbers. -/
theorem C5_valid_line_counts_once_witness :
    countLinesCC CLASS_NAMES ["2 0.1 0.1 bad bad"] zeroCounts =
      countLinesCC CLASS_NAMES [] (bump zeroCounts (CLASS_NAMES.getD (Int.toNat 2) "")) ∧
    (countLinesCC CLASS_NAMES ["2 0.1 0.1 bad bad"] zeroCounts).1 "radish" = 1 :=
  ⟨(C5_valid_line_counts_once CLASS_NAMES "2 0.1 0.1 bad bad" [] zeroCounts 0 2
      (by decide) (by decide) (by decide) (by decide)).1,
   by decide⟩

/-- C7: on the same label-file lines, the same class table and the same
starting counts, the Dataset Preparer's `copy_and_count_annotation` and the
Annotation Counter's `process_single_label_file` leave identical per-class
counts, whatever the copy outcomes. -/
theorem C7_preparer_counter_counts_agree (openOk cl ci : Bool)
    (names : List String) (lines : List String) (c : Counts) :
    ( copy_and_count_annotation ⟨openOk, cl, ci⟩ names lines c).counts =
      (process_single_label_file openOk names lines c).1 := by
  rw [copy_and_count_counts_eq]
  cases openOk with
  | false => rfl
  | true =>
    simp only [process_single_label_file]
    rw [if_pos trivial, if_neg (by simp)]
    exact countLines_counts_eq names lines c

/-- C1 fails on the code: in the five-field line `"x 0 0 0 0"` the first
field is not an integer literal, and `int(parts[0])` raises, aborting the
rest of the file — the valid line after it is not counted (alone it would
count one `carrot`), and the file-level call reports failure instead of a
per-line skip. -/
theorem C1_counterexample :
    (countLinesCC CLASS_NAMES ["x 0 0 0 0", "0 0.5 0.5 0.2 0.2"] zeroCounts).2 = false ∧
    (countLinesCC CLASS_NAMES ["x 0 0 0 0", "0 0.5 0.5 0.2 0.2"] zeroCounts).1 "carrot" = 0 ∧
    (countLinesCC CLASS_NAMES ["0 0.5 0.5 0.2 0.2"] zeroCounts).1 "carrot" = 1 ∧
    ( copy_and_count_annotation ⟨true, true, true⟩ CLASS_NAMES
      ["x 0 0 0 0", "0 0.5 0.5 0.2 0.2"] zeroCounts).ok = false ∧
    (process_single_label_file true CLASS_NAMES
      ["x 0 0 0 0", "0 0.5 0.5 0.2 0.2"] zeroCounts).2 = 0 := by
  refine ⟨by decide, by decide, by decide, by decide, by decide⟩

/-- C1 amended: line validation is total for malformed and out-of-range
lines, but a line with at least five fields whose first field is not a valid
integer literal raises `ValueError`, which aborts processing of the rest of
the file; the exception is confined to the file: the preparer's
`copy_and_count_annotation` returns failure (the file is counted as skipped)
and the counter's `process_single_label_file` returns the counts accumulated
before the bad line. -/
theorem C1_amended_parse_error_aborts_file (names : List String) (l : String)
    (pre post : List String) (c : Counts) (cl ci : Bool)
    (h5 : ¬ (pySplit (pyStrip l)).length < 5)
    (hp : pyInt ((pySplit (pyStrip l)).headD "") = none)
    (hpre : (countLinesCC names pre c).2 = true) :
    countLinesCC names (pre ++ l :: post) c = ((countLinesCC names pre c).1, false) ∧
    ( copy_and_count_annotation ⟨true, cl, ci⟩ names (pre ++ l :: post) c).ok = false ∧
    ( copy_and_count_annotation ⟨true, cl, ci⟩ names (pre ++ l :: post) c).counts =
      (countLinesCC names pre c).1 ∧
    (process_single_label_file true names (pre ++ l :: post) c).1 =
      (countLinesCC names pre c).1 := by
  have habort : countLinesCC names (pre ++ l :: post) c =
      ((countLinesCC names pre c).1, false) := by
    rw [countLinesCC_append names pre (l :: post) c hpre,
      countLinesCC_cons_raise h5 hp]
  refine ⟨habort, ?_, ?_, ?_⟩
  · simp only [ copy_and_count_annotation]
    rw [if_neg (by simp), habort]
    rfl
  · rw [copy_and_count_counts_eq]
    simp only [if_pos trivial, habort]
  · have := countLines_counts_eq names (pre ++ l :: post) c
    rw [habort] at this
    simp only [process_single_label_file]
    rw [if_neg (by simp)]
    exact this.symm

/-- Witness for C1 amended: the file `["0 0.5 0.5 0.2 0.2", "x 0 0 0 0",
"1 1 1 1 1"]` keeps the one `carrot` counted before the bad line, drops
everything after it, and is reported as failed by the preparer. -/
theorem C1_amended_parse_error_aborts_file_witness :
    countLinesCC CLASS_NAMES (["0 0.5 0.5 0.2 0.2"] ++ "x 0 0 0 0" :: ["1 1 1 1 1"])
        zeroCounts =
      ((countLinesCC CLASS_NAMES ["0 0.5 0.5 0.2 0.2"] zeroCounts).1, false) ∧
    ( copy_and_count_annotation ⟨true, true, true⟩ CLASS_NAMES
      (["0 0.5 0.5 0.2 0.2"] ++ "x 0 0 0 0" :: ["1 1 1 1 1"]) zeroCounts).ok = false :=
  have h := C1_amended_parse_error_aborts_file CLASS_NAMES "x 0 0 0 0"
    ["0 0.5 0.5 0.2 0.2"] ["1 1 1 1 1"] zeroCounts true true
    (by decide) (by decide) (by decide)
  ⟨h.1, h.2.1⟩

/-- Under a copy failure (label copy fails, or label copy succeeds and image
copy fails) after an exception-free read, `copy_and_count_annotation` returns
failure but leaves the counts produced by the line loop in place. -/
theorem copy_and_count_copy_fail (env : FileEnv) (names : List String)
    (lines : List String) (c : Counts) (hopen : env.openOk = true)
    (hnoexc : (countLinesCC names lines c).2 = true)
    (hfail : env.copyLabelOk = false ∨
      (env.copyLabelOk = true ∧ env.copyImgOk = false)) :
    copy_and_count_annotation env names lines c =
      ⟨(countLinesCC names lines c).1, false, env.copyLabelOk, false⟩ := by
  obtain ⟨o, cl, ci⟩ := env
  cases o with
  | false => simp at hopen
  | true =>
    simp only [ copy_and_count_annotation]
    rw [if_neg (by simp), if_neg (by simp [hnoexc])]
    rcases hfail with hcl | ⟨hcl, hci⟩ <;> subst hcl
    · rw [if_pos rfl]
    · subst hci
      rw [if_neg (by simp), if_pos rfl]

/-- C2 fails on the code: with one train label file `a.txt` (one valid
`carrot` line, matching image present) whose label copy fails, the skipped
counter becomes 1 and no image is accepted — but the per-class counts show
one `carrot`, because `copy_and_count_annotation` counts the lines before
copying and the shared dictionary is not rolled back. -/
theorem C2_counterexample :
    (prepare_dataset CLASS_NAMES
        ⟨fun _ => ⟨true, false, true⟩, fun _ => ⟨true, true, true⟩⟩
        ⟨"/abs/data", ["a.jpg"], fun _ => "IMG", true, ["a.txt"],
         fun _ => ["0 0.5 0.5 0.2 0.2"], false, [], fun _ => []⟩).skippedImageCount = 1 ∧
    (prepare_dataset CLASS_NAMES
        ⟨fun _ => ⟨true, false, true⟩, fun _ => ⟨true, true, true⟩⟩
        ⟨"/abs/data", ["a.jpg"], fun _ => "IMG", true, ["a.txt"],
         fun _ => ["0 0.5 0.5 0.2 0.2"], false, [], fun _ => []⟩).trainImageCount = 0 ∧
    (prepare_dataset CLASS_NAMES
        ⟨fun _ => ⟨true, false, true⟩, fun _ => ⟨true, true, true⟩⟩
        ⟨"/abs/data", ["a.jpg"], fun _ => "IMG", true, ["a.txt"],
         fun _ => ["0 0.5 0.5 0.2 0.2"], false, [], fun _ => []⟩).counts "carrot" = 1 :=
  ⟨by decide, by decide, by decide⟩

/-- C2 amended: a file whose image or label copy fails increments the
skipped-image counter by exactly one and the run continues with the next
file, but the per-class counts keep the increments from that file's lines
(counting precedes copying and is not rolled back); a label copied before the
image-copy failure also remains in the output tree. -/
theorem C2_amended_copy_failure_keeps_counts (names rawFiles : List String)
    (imgContent : String → String) (content : String → List String)
    (fenv : String → FileEnv) (f : String) (fs : List String) (st : SplitState)
    (htxt : pyEndsWith f ".txt" = true)
    (hraw : (rawBasenames rawFiles).contains (splitextBase f) = true)
    (hopen : (fenv f).openOk = true)
    (hnoexc : (countLinesCC names (content f) st.counts).2 = true)
    (hfail : (fenv f).copyLabelOk = false ∨
      ((fenv f).copyLabelOk = true ∧ (fenv f).copyImgOk = false)) :
    processSplitFiles names rawFiles imgContent content fenv (f :: fs) st =
      processSplitFiles names rawFiles imgContent content fenv fs
        { accepted := st.accepted
          skipped := st.skipped + 1
          counts := (countLinesCC names (content f) st.counts).1
          copiedLabels :=
            if (fenv f).copyLabelOk then st.copiedLabels ++ [(f, content f)]
            else st.copiedLabels
          copiedImages := st.copiedImages } := by
  simp only [processSplitFiles]
  rw [htxt, if_neg (by simp), hraw, if_neg (by simp),
    copy_and_count_copy_fail (fenv f) names (content f) st.counts hopen hnoexc hfail]
  rcases hfail with hcl | ⟨hcl, _⟩ <;> rw [hcl] <;> simp

/-- Witness for C2 amended: one `a.txt` with one valid `carrot` line, image
present, label copy failing. -/
theorem C2_amended_copy_failure_keeps_counts_witness :
    processSplitFiles CLASS_NAMES ["a.jpg"] (fun _ => "IMG")
        (fun _ => ["0 0.5 0.5 0.2 0.2"]) (fun _ => ⟨true, false, true⟩)
        ["a.txt"] ⟨0, 0, zeroCounts, [], []⟩ =
      processSplitFiles CLASS_NAMES ["a.jpg"] (fun _ => "IMG")
        (fun _ => ["0 0.5 0.5 0.2 0.2"]) (fun _ => ⟨true, false, true⟩) []
        { accepted := 0
          skipped := 0 + 1
          counts := (countLinesCC CLASS_NAMES ["0 0.5 0.5 0.2 0.2"] zeroCounts).1
          copiedLabels :=
            if (false : Bool) then [] ++ [("a.txt", ["0 0.5 0.5 0.2 0.2"])] else []
          copiedImages := [] } := by
  have h := C2_amended_copy_failure_keeps_counts CLASS_NAMES ["a.jpg"]
    (fun _ => "IMG") (fun _ => ["0 0.5 0.5 0.2 0.2"]) (fun _ => ⟨true, false, true⟩)
    "a.txt" [] ⟨0, 0, zeroCounts, [], []⟩ (by decide) (by decide) rfl (by decide)
    (Or.inl rfl)
  exact h

/-- C8: a `.txt` label file whose base name has no matching raw image is
skipped: the skipped-image counter increments by exactly one, the counts and
the copied files are untouched, and the loop continues with the next file. -/
theorem C8_missing_image_skips (names rawFiles : List String)
    (imgContent : String → String) (content : String → List String)
    (fenv : String → FileEnv) (f : String) (fs : List String) (st : SplitState)
    (htxt : pyEndsWith f ".txt" = true)
    (hraw : (rawBasenames rawFiles).contains (splitextBase f) = false) :
    processSplitFiles names rawFiles imgContent content fenv (f :: fs) st =
      processSplitFiles names rawFiles imgContent content fenv fs
        { st with skipped := st.skipped + 1 } := by
  simp only [processSplitFiles]
  rw [htxt, if_neg (by simp), hraw, if_pos rfl]

/-- Witness for C8: `b.txt` has no matching image among `["a.jpg"]`. -/
theorem C8_missing_image_skips_witness :
    processSplitFiles CLASS_NAMES ["a.jpg"] (fun _ => "IMG") (fun _ => [])
        (fun _ => ⟨true, true, true⟩) ["b.txt"] ⟨0, 0, zeroCounts, [], []⟩ =
      processSplitFiles CLASS_NAMES ["a.jpg"] (fun _ => "IMG") (fun _ => [])
        (fun _ => ⟨true, true, true⟩) []
        { (⟨0, 0, zeroCounts, [], []⟩ : SplitState) with skipped := 0 + 1 } :=
  C8_missing_image_skips CLASS_NAMES ["a.jpg"] (fun _ => "IMG") (fun _ => [])
    (fun _ => ⟨true, true, true⟩) "b.txt" [] ⟨0, 0, zeroCounts, [], []⟩
    (by decide) (by decide)

/-- Each `.txt` file adds exactly one to accepted + skipped in a split loop. -/
theorem processSplitFiles_accounting (names rawFiles : List String)
    (imgContent : String → String) (content : String → List String)
    (fenv : String → FileEnv) (files : List String) :
    ∀ st : SplitState,
      (processSplitFiles names rawFiles imgContent content fenv files st).accepted +
        (processSplitFiles names rawFiles imgContent content fenv files st).skipped =
      st.accepted + st.skipped +
        (files.filter (fun g => pyEndsWith g ".txt")).length := by
  induction files with
  | nil => intro st; simp [processSplitFiles]
  | cons f fs ih =>
    intro st
    simp only [processSplitFiles, List.filter_cons]
    cases htxt : pyEndsWith f ".txt" with
    | false =>
      rw [if_pos rfl]
      simp only [Bool.false_eq_true, if_false]
      exact ih st
    | true =>
      rw [if_neg (by simp)]
      simp only [if_true, List.length_cons]
      by_cases hraw : (rawBasenames rawFiles).contains (splitextBase f) = false
      · rw [if_pos hraw]
        have := ih { st with skipped := st.skipped + 1 }
        simp only [this]
        omega
      · rw [if_neg hraw]
        cases hok : ( copy_and_count_annotation (fenv f) names (content f) st.counts).ok
          with
        | false =>
          have := ih
            { accepted := st.accepted
              skipped := st.skipped + 1
              counts := ( copy_and_count_annotation (fenv f) names (content f) st.counts).counts
              copiedLabels :=
                if ( copy_and_count_annotation (fenv f) names (content f) st.counts).wroteLabel
                then st.copiedLabels ++ [(f, content f)] else st.copiedLabels
              copiedImages :=
                if ( copy_and_count_annotation (fenv f) names (content f) st.counts).wroteImage
                then st.copiedImages ++
                  [((rawPathMap rawFiles (splitextBase f)).getD "",
                    imgContent ((rawPathMap rawFiles (splitextBase f)).getD ""))]
                else st.copiedImages }
          simp only [hok, Bool.false_eq_true, if_false] at this ⊢
          rw [this]
          omega
        | true =>
          have := ih
            { accepted := st.accepted + 1
              skipped := st.skipped
              counts := ( copy_and_count_annotation (fenv f) names (content f) st.counts).counts
              copiedLabels :=
                if ( copy_and_count_annotation (fenv f) names (content f) st.counts).wroteLabel
                then st.copiedLabels ++ [(f, content f)] else st.copiedLabels
              copiedImages :=
                if ( copy_and_count_annotation (fenv f) names (content f) st.counts).wroteImage
                then st.copiedImages ++
                  [((rawPathMap rawFiles (splitextBase f)).getD "",
                    imgContent ((rawPathMap rawFiles (splitextBase f)).getD ""))]
                else st.copiedImages }
          simp only [hok, if_true] at this ⊢
          rw [this]
          omega

/-- C10: accepted train images + accepted validation images + skipped images
equals the number of `.txt` files across the existing split label
directories, and a directory entry not ending in `.txt` changes nothing in a
split loop (no counter, no copy, no diagnostic state). -/
theorem C10_txt_files_accounted_once (names : List String) (env : PrepEnv)
    (inp : PrepInput) (rawFiles : List String) (imgContent : String → String)
    (content : String → List String) (fenv : String → FileEnv)
    (f : String) (fs : List String) (st : SplitState)
    (hf : pyEndsWith f ".txt" = false) :
    (prepare_dataset names env inp).trainImageCount +
      (prepare_dataset names env inp).valImageCount +
      (prepare_dataset names env inp).skippedImageCount =
      (if inp.trainDirExists then
        (inp.trainFiles.filter (fun g => pyEndsWith g ".txt")).length else 0) +
      (if inp.valDirExists then
        (inp.valFiles.filter (fun g => pyEndsWith g ".txt")).length else 0) ∧
    processSplitFiles names rawFiles imgContent content fenv (f :: fs) st =
      processSplitFiles names rawFiles imgContent content fenv fs st := by
  constructor
  · simp only [prepare_dataset]
    have hfalse : (false = true) = False := by simp
    have htrue : (true = true) = True := by simp
    cases ht : inp.trainDirExists with
    | false =>
      cases hv : inp.valDirExists with
      | false => simp only [hfalse, if_false]
      | true =>
        simp only [hfalse, htrue, if_false, if_true]
        have hV := processSplitFiles_accounting names inp.rawDirFiles inp.imgContent
          inp.valContent env.valEnv inp.valFiles ⟨0, 0, zeroCounts, [], []⟩
        simp only [SplitState.accepted, SplitState.skipped] at hV ⊢
        omega
    | true =>
      cases hv : inp.valDirExists with
      | false =>
        simp only [hfalse, htrue, if_false, if_true]
        have hT := processSplitFiles_accounting names inp.rawDirFiles inp.imgContent
          inp.trainContent env.trainEnv inp.trainFiles ⟨0, 0, zeroCounts, [], []⟩
        simp only [SplitState.accepted, SplitState.skipped] at hT ⊢
        omega
      | true =>
        simp only [htrue, if_true]
        have hT := processSplitFiles_accounting names inp.rawDirFiles inp.imgContent
          inp.trainContent env.trainEnv inp.trainFiles ⟨0, 0, zeroCounts, [], []⟩
        have hV := processSplitFiles_accounting names inp.rawDirFiles inp.imgContent
          inp.valContent env.valEnv inp.valFiles
          ⟨0, (processSplitFiles names inp.rawDirFiles inp.imgContent inp.trainContent
                env.trainEnv inp.trainFiles ⟨0, 0, zeroCounts, [], []⟩).skipped,
            (processSplitFiles names inp.rawDirFiles inp.imgContent inp.trainContent
                env.trainEnv inp.trainFiles ⟨0, 0, zeroCounts, [], []⟩).counts, [], []⟩
        simp only [SplitState.accepted, SplitState.skipped] at hT hV ⊢
        omega
  · simp only [processSplitFiles]
    rw [hf, if_pos rfl]

/-- Witness for C10 at a one-file input and the non-`.txt` entry `notes.md`. -/
theorem C10_txt_files_accounted_once_witness :
    ((prepare_dataset CLASS_NAMES ⟨fun _ => ⟨true, true, true⟩, fun _ => ⟨true, true, true⟩⟩
        ⟨"/abs/data", ["a.jpg"], fun _ => "IMG", true, ["a.txt", "notes.md"],
         fun _ => ["0 0.5 0.5 0.2 0.2"], false, [], fun _ => []⟩).trainImageCount +
      (prepare_dataset CLASS_NAMES ⟨fun _ => ⟨true, true, true⟩, fun _ => ⟨true, true, true⟩⟩
        ⟨"/abs/data", ["a.jpg"], fun _ => "IMG", true, ["a.txt", "notes.md"],
         fun _ => ["0 0.5 0.5 0.2 0.2"], false, [], fun _ => []⟩).valImageCount +
      (prepare_dataset CLASS_NAMES ⟨fun _ => ⟨true, true, true⟩, fun _ => ⟨true, true, true⟩⟩
        ⟨"/abs/data", ["a.jpg"], fun _ => "IMG", true, ["a.txt", "notes.md"],
         fun _ => ["0 0.5 0.5 0.2 0.2"], false, [], fun _ => []⟩).skippedImageCount =
      (if true then ((["a.txt", "notes.md"] : List String).filter
        (fun g => pyEndsWith g ".txt")).length else 0) +
      (if false then (([] : List String).filter
        (fun g => pyEndsWith g ".txt")).length else 0)) ∧
    processSplitFiles CLASS_NAMES [] (fun _ => "") (fun _ => [])
        (fun _ => ⟨true, true, true⟩) ("notes.md" :: []) ⟨0, 0, zeroCounts, [], []⟩ =
      processSplitFiles CLASS_NAMES [] (fun _ => "") (fun _ => [])
        (fun _ => ⟨true, true, true⟩) [] ⟨0, 0, zeroCounts, [], []⟩ :=
  C10_txt_files_accounted_once CLASS_NAMES
    ⟨fun _ => ⟨true, true, true⟩, fun _ => ⟨true, true, true⟩⟩
    ⟨"/abs/data", ["a.jpg"], fun _ => "IMG", true, ["a.txt", "notes.md"],
     fun _ => ["0 0.5 0.5 0.2 0.2"], false, [], fun _ => []⟩
    [] (fun _ => "") (fun _ => []) (fun _ => ⟨true, true, true⟩)
    "notes.md" [] ⟨0, 0, zeroCounts, [], []⟩ (by decide)

/-- C6: the destructive reset makes a `prepare_dataset` run independent of
whatever the output directory held before, so re-running on unchanged inputs
reproduces the identical output tree (and identical counts and counters). -/
theorem C6_rerun_reproduces_tree (names : List String) (env : PrepEnv)
    (inp : PrepInput) (prev : OutputTree) :
    prepare_dataset_run names env inp (prepare_dataset_run names env inp prev).tree =
      prepare_dataset_run names env inp prev ∧
    ∀ prev' : OutputTree,
      (prepare_dataset_run names env inp prev').tree =
        (prepare_dataset_run names env inp prev).tree :=
  ⟨rfl, fun _ => rfl⟩

/-- A trace of non-mutating operations leaves any file system unchanged. -/
theorem applyTrace_reads_id (ops : List FsOp) :
    ∀ fs : FS, (∀ op ∈ ops, op.mutates = false) → applyTrace ops fs = fs := by
  induction ops with
  | nil => intro fs _; rfl
  | cons op ops ih =>
    intro fs h
    have h1 := h op (List.mem_cons_self op ops)
    have hfs : applyOp fs op = fs := by
      cases op with
      | checkExists p => rfl
      | listDir p => rfl
      | openRead p => rfl
      | writeFile p c => simp [FsOp.mutates] at h1
      | copyFile s d => simp [FsOp.mutates] at h1
      | removeTree p => simp [FsOp.mutates] at h1
      | makeDirs p => simp [FsOp.mutates] at h1
    simp only [applyTrace, List.foldl_cons] at ih ⊢
    rw [hfs]
    exact ih fs (fun o ho => h o (List.mem_cons_of_mem op ho))

/-- Every operation the Annotation Counter performs is a read. -/
theorem counterTrace_reads (inp : CounterInput) :
    ∀ op ∈ counterTrace inp, op.mutates = false := by
  intro op hop
  rcases List.mem_append.mp hop with h | h
  · rcases List.mem_cons.mp h with rfl | h2
    · rfl
    · cases ht : inp.trainDirExists <;> rw [ht] at h2
      · simp at h2
      · rw [if_pos rfl] at h2
        rcases List.mem_cons.mp h2 with rfl | h3
        · rfl
        · obtain ⟨g, _, rfl⟩ := List.mem_map.mp h3
          rfl
  · rcases List.mem_cons.mp h with rfl | h2
    · rfl
    · cases hv : inp.valDirExists <;> rw [hv] at h2
      · simp at h2
      · rw [if_pos rfl] at h2
        rcases List.mem_cons.mp h2 with rfl | h3
        · rfl
        · obtain ⟨g, _, rfl⟩ := List.mem_map.mp h3
          rfl

/-- C9: the Annotation Counter's run is read-only — applying its whole
operation trace to any file-system state returns that state unchanged, and
its trace contains no mutating operation. -/
theorem C9_counter_mutates_nothing (inp : CounterInput) (fs : FS) :
    applyTrace (counterTrace inp) fs = fs ∧
    (counterTrace inp).all (fun op => !op.mutates) = true :=
  ⟨applyTrace_reads_id _ fs (counterTrace_reads inp),
   List.all_eq_true.mpr (fun op hop => by
     rw [counterTrace_reads inp op hop]; rfl)⟩

/-- C3 fails on the code: with both split label directories missing (so every
reported count would be zero), `count_annotations_per_class_in_cvat_splits`
raises an unbound-local `NameError` at the target-progress loop (utils.py
line 88) instead of completing its report, because `overall_counts` is only
assigned under `if total_objects_overall > 0`. -/
theorem C3_zero_total_raises_nameError :
    count_annotations_per_class_in_cvat_splits CLASS_NAMES
      ⟨false, [], fun _ => [], fun _ => true, false, [], fun _ => [], fun _ => true⟩ =
      Except.error PyError.nameError := rfl

end MLInv
